import Mathlib

/-!
Verification development for the GeometryControls class
(src/geometrycontrols.js): a shallow embedding of its exclusive
tool-activation state machine (toggleButtons and the createButton click
handler), its AOP advice engine (aop.addBefore / addAfter / addAround /
attach_), its autosave aspect (addAutoSaveAspect), the payload-building
part of saveData, and the geometry dispatcher createGeometry_.
-/

/-! ## Button toggle state machine

The class keeps two insertion-ordered maps with the same keys:
buttons_ (name to button DOM object, whose img.src is either the up or
the down image url) and stopDigitizingFuncs_ (name to the external
deactivation function of the control).  We model the shared key list
and, for each name, whether the img currently shows the down image.
The external stopDigitizing functions are collaborators outside this
file; calls to them are recorded as trace events.  Per the recursion
guard described for notifyOthers = false, such a call performs no
button-state mutation of its own. -/

/-- Trace events: deact f b is a call stopDigitizingFuncs_[f](b);
startDig n and stopDig n are the calls opts.startDigitizing() and
opts.stopDigitizing() made by the click handler of button n. -/
inductive CallEv where
  | deact : String → Bool → CallEv
  | startDig : String → CallEv
  | stopDig : String → CallEv
deriving DecidableEq, Repr

/-- State of the GeometryControls instance relevant to toggling:
the registered button names (key set of buttons_ and
stopDigitizingFuncs_, in insertion order) and, per name, whether the
button img shows the down image. -/
structure GCState where
  buttons : List String
  down : String → Bool

/-- GeometryControls.prototype.toggleButtons (lines 196-216).
With no name: every registered button img is set to its up image and
nothing else happens.  With a name: every registered button img is set
up, then the named button img is set down, then every registered
stopDigitizing function other than the named one is called with false.
Reading buttons_[name] for an unregistered name throws a TypeError in
the source; the model returns none in that case. -/
def toggleButtons (st : GCState) (button_name : Option String) :
    Option (GCState × List CallEv) :=
  let allUp : String → Bool := fun b => if b ∈ st.buttons then false else st.down b
  match button_name with
  | none => some ({ st with down := allUp }, [])
  | some n =>
      if n ∈ st.buttons then
        some ({ st with down := fun b => if b = n then true else allUp b },
              (st.buttons.filter (fun f => f ≠ n)).map (fun f => CallEv.deact f false))
      else
        none

/-- Runs a sequence of toggleButtons calls, each with a tool name. -/
def runToggles : GCState → List String → Option GCState
  | st, [] => some st
  | st, n :: ns =>
      match toggleButtons st (some n) with
      | none => none
      | some (st1, _) => runToggles st1 ns

/-- The click listener installed by GeometryControls.prototype.createButton
(lines 176-184).  If the button img currently shows the up image, it
calls toggleButtons with the button name and then startDigitizing();
otherwise it calls toggleButtons with the button name and then
stopDigitizing() with no argument.

Modelled from the spec: the bodies of the external startDigitizing and
stopDigitizing functions are not part of this file.  Per the state
machine description, a deactivation with notifyOthers not equal to
false turns the tool off and resets every button, which the source
comment on toggleButtons pins down as an external call to toggleButtons
made without parameters; startDigitizing touches no button state. -/
def clickButton (st : GCState) (x : String) : Option (GCState × List CallEv) :=
  if st.down x = false then
    (toggleButtons st (some x)).map
      (fun p => (p.1, p.2 ++ [CallEv.startDig x]))
  else
    (toggleButtons st (some x)).bind (fun p =>
      (toggleButtons p.1 none).map (fun q =>
        (q.1, p.2 ++ [CallEv.stopDig x] ++ q.2)))

/-! ## AOP advice engine (Ajaxpect, lines 473-519)

A JavaScript function value is modelled as taking the receiver it is
invoked on (this), one argument, and a trace log; it returns a result
and the extended log.  Receivers are opaque identifiers, arguments and
results are integers, and a log entry (name, receiver, argument)
records one invocation of an instrumented function.  Objects are
insertion-ordered association lists from member name to function, and
property read is first match, as in the host language. -/

/-- One invocation record: function label, the receiver it saw as this,
and the value it received (its argument, or for after-advice the result
handed to it). -/
abbrev Log := List (String × String × Int)

/-- A JavaScript function value: receiver, argument, log in; result and
extended log out. -/
def JsFn : Type := String → Int → Log → Int × Log

/-- Advice of the before and around shapes: receives (arguments, orig,
this) plus the log. -/
def Advice3 : Type := Int → JsFn → String → Log → Int × Log

/-- Advice of the after shape: receives (result, arguments, orig, this)
plus the log. -/
def Advice4 : Type := Int → Int → JsFn → String → Log → Int × Log

/-- An object: insertion-ordered members, name to function. -/
abbrev Obj := List (String × JsFn)

/-- Property read obj[m]: the first member named m, if any. -/
def lookupFn (obj : Obj) (m : String) : Option JsFn :=
  (obj.find? (fun p => p.1 = m)).map Prod.snd

namespace aop

/-- aop.attach_ (lines 515-518): obj[member] = link(obj[member]).
In-place member replacement is modelled by rebuilding the list with the
member mapped through link. -/
def attach_ (obj : Obj) (member : String) (link : JsFn → JsFn) : Obj :=
  obj.map (fun p => if p.1 = member then (p.1, link p.2) else p)

/-- The link closure of aop.addBefore (lines 474-481): the wrapper calls
before(arguments, orig, this), then applies orig on the same this with
the argument list before returned, and returns the result of orig. -/
def addBeforeLink (before : Advice3) (orig : JsFn) : JsFn :=
  fun this_ args log =>
    let r := before args orig this_ log
    orig this_ r.1 r.2

/-- The link closure of aop.addAfter (lines 482-489): the wrapper applies
orig on the same this with the incoming arguments, then returns
after(result, arguments, orig, this). -/
def addAfterLink (after : Advice4) (orig : JsFn) : JsFn :=
  fun this_ args log =>
    let r := orig this_ args log
    after r.1 args orig this_ r.2

/-- The link closure of aop.addAround (lines 490-497): the wrapper
returns around(arguments, orig, this); around decides whether to call
orig. -/
def addAroundLink (around : Advice3) (orig : JsFn) : JsFn :=
  fun this_ args log => around args orig this_ log

/-- aop.addBefore on a plain member name: process_ (lines 498-514) sees a
string filter with neither an exec nor a call member, so it attaches
directly to that member. -/
def addBefore (obj : Obj) (member : String) (before : Advice3) : Obj :=
  attach_ obj member (addBeforeLink before)

/-- aop.addAfter on a plain member name. -/
def addAfter (obj : Obj) (member : String) (after : Advice4) : Obj :=
  attach_ obj member (addAfterLink after)

/-- aop.addAround on a plain member name. -/
def addAround (obj : Obj) (member : String) (around : Advice3) : Obj :=
  attach_ obj member (addAroundLink around)

end aop

/-- A method call obj.m(arg) performed with receiver r (for a plain
obj.m(arg) call the host language passes obj itself as r). -/
def callMethod (obj : Obj) (m : String) (r : String) (arg : Int) (log : Log) :
    Option (Int × Log) :=
  (lookupFn obj m).map (fun f => f r arg log)

/-- An instrumented plain function: applies a pure function to its
argument and logs (name, receiver, argument). -/
def mkFn (name : String) (f : Int → Int) : JsFn :=
  fun this_ arg log => (f arg, log ++ [(name, this_, arg)])

/-- An instrumented before-advice: logs (name, receiver, arguments) and
returns the rewritten argument list f(arguments). -/
def mkBefore (name : String) (f : Int → Int) : Advice3 :=
  fun args _orig this_ log => (f args, log ++ [(name, this_, args)])

/-- An instrumented after-advice: logs (name, receiver, result) and
returns f(result). -/
def mkAfter (name : String) (f : Int → Int) : Advice4 :=
  fun result _args _orig this_ log => (f result, log ++ [(name, this_, result)])

/-- An instrumented around-advice that logs (name, receiver, arguments)
and then invokes orig on the receiver it was handed. -/
def mkAround (name : String) : Advice3 :=
  fun args orig this_ log => orig this_ args (log ++ [(name, this_, args)])

/-! ## saveData: the payload-building step (lines 323-353)

saveData reads record = geomInfo.storage[index], builds recordJSON with
recordJSON.type = record.type, recordJSON.geometry = a GeoJSON object
of type Polygon whose coordinates collect [vertex.lng(), vertex.lat()]
for the vertices of record.geometry in index order, then replaces
recordJSON.geometry by its JSON stringification, and sets
recordJSON.name = record.title[0].  Vertices carry integer coordinates
in the model; the vertex sequence of the external geometry handle is
its iteration order via getVertex. -/

/-- A vertex of the external geometry handle: lat and lng. -/
structure LatLng where
  lat : Int
  lng : Int
deriving DecidableEq, Repr

/-- A storage record geomInfo.storage[index]: geometry type tag, vertex
sequence, the title array (current, previous) of the Geometry bean, and
the optional persistence id. -/
structure StorageRecord where
  type : String
  geometry : List LatLng
  title : String × String
  id : Option Nat
deriving Repr

/-- A JSON-like value, enough to describe the geometry field of the
payload: a string, a number, or an array. -/
inductive Json where
  | str : String → Json
  | num : Int → Json
  | arr : List Json → Json
deriving Repr

/-- The payload recordJSON posted by saveData: type, geometry and
name fields. -/
structure RecordJSON where
  type : String
  geometry : Json
  name : String
deriving Repr

/-- The coordinates array built by the vertex loop of saveData: the
pairs (vertex.lng(), vertex.lat()) in vertex iteration order. -/
def saveDataCoordinates (g : List LatLng) : List (Int × Int) :=
  g.map (fun v => (v.lng, v.lat))

/-- JSON.stringify applied to the object
with type "Polygon" and the given coordinates, exactly as the host
serializer prints it (no whitespace). -/
def stringifyPolygonGeometry (coords : List (Int × Int)) : String :=
  "\x7b\"type\":\"Polygon\",\"coordinates\":[" ++
    String.intercalate ","
      (coords.map (fun c => "[" ++ toString c.1 ++ "," ++ toString c.2 ++ "]")) ++
    "]\x7d"

/-- The payload-building step of GeometryControls.prototype.saveData
(lines 327-347): everything before the HTTP post. -/
def saveDataPayload (record : StorageRecord) : RecordJSON :=
  { type := record.type,
    geometry := Json.str (stringifyPolygonGeometry (saveDataCoordinates record.geometry)),
    name := record.title.1 }

/-- The concrete record of the payload-shape property: vertices with
(lat, lng) = (1, 2) and (3, 4), title "Lot A". -/
def lotARecord : StorageRecord :=
  { type := "poly", geometry := [⟨1, 2⟩, ⟨3, 4⟩], title := ("Lot A", ""), id := none }

/-! ## createGeometry_ (lines 272-289)

The dispatcher switches on record.type over "point", "line" and "poly",
delegating to me.controls["markerControl"].loadMarkers,
me.controls["polylineControl"].loadPolylines and
me.controls["polygonControl"].loadPolygons respectively, inside a
try/catch whose handler calls me.debug with a message.  A missing
control makes the member access throw a TypeError, which the catch
turns into a log line; a type outside the three cases falls through the
switch and returns undefined with no logging.  The model returns the
loaded value (none models an undefined return), the emitted debug
lines, and the names of the controls whose load method ran. -/

/-- The registered controls: name to load method.  A load method may
itself throw, modelled by Except. -/
def ControlsMap : Type := String → Option (StorageRecord → Except String Int)

/-- The debug line printed by the catch block of createGeometry_, for
the stringified error e. -/
def createGeometryDebugMsg (e : String) : String :=
  "A geometry Control has not been added for the geometry type you are trying to load or there is an error." ++
    "Your error is: " ++ e

/-- Delegation to one control: a missing control throws a TypeError
that the catch logs; a load that throws is likewise caught and logged;
otherwise the loaded value is returned. -/
def dispatchLoad (controls : ControlsMap) (ctrlName : String)
    (record : StorageRecord) : Option Int × List String × List String :=
  match controls ctrlName with
  | none => (none, [createGeometryDebugMsg "TypeError"], [])
  | some load =>
      match load record with
      | Except.ok v => (some v, [], [ctrlName])
      | Except.error e => (none, [createGeometryDebugMsg e], [ctrlName])

/-- GeometryControls.prototype.createGeometry_ (lines 272-289). -/
def createGeometry_ (controls : ControlsMap) (record : StorageRecord) :
    Option Int × List String × List String :=
  if record.type = "point" then dispatchLoad controls "markerControl" record
  else if record.type = "line" then dispatchLoad controls "polylineControl" record
  else if record.type = "poly" then dispatchLoad controls "polygonControl" record
  else (none, [], [])

/-! ## addAutoSaveAspect (lines 295-315)

The aspect adds before-advice to bindInfoWindow.  When a session binds,
the advice (1) stores the session commitStyling callback in the single
me.autoSaveListener slot, (2) replaces geomInfo.commitStyling with a
closure that invokes whatever me.autoSaveListener holds at call time,
and (3) addAfter-wraps the autoSaveListener member so that after the
stored callback runs, saveData is called with the geomInfo captured by
the advice closure.  Function values stored in these slots are
defunctionalised; sessions are numbered, and the external work is
recorded as events: styled s when the original commitStyling of session
s runs, saved s when saveData runs with the geomInfo of session s.  The
body of bindInfoWindow itself is an external collaborator with no
effect on these slots. -/

/-- Defunctionalised function values that can sit in the
autoSaveListener slot or in a geomInfo.commitStyling slot. -/
inductive FnVal where
  | origStyle : Nat → FnVal
  | meListener : FnVal
  | afterSave : FnVal → Nat → FnVal
deriving DecidableEq, Repr

/-- Events of the autosave pipeline. -/
inductive SaveEv where
  | styled : Nat → SaveEv
  | saved : Nat → SaveEv
deriving DecidableEq, Repr

/-- The mutable slots the aspect touches: the me.autoSaveListener member
and, per session, the commitStyling member of that session geomInfo. -/
structure AspectState where
  autoSaveListener : Option FnVal
  commitStyling : Nat → FnVal

/-- Invoking a function value in a given state.  origStyle s runs the
original styling of session s; meListener reads the current
autoSaveListener slot and invokes it (calling an unset slot throws,
modelled as none); afterSave f s — the addAfter wrapper — invokes f and
then runs saveData with the geomInfo of session s.  Fuel bounds the
call depth; none also models a stack overflow. -/
def invoke (st : AspectState) : Nat → FnVal → Option (List SaveEv)
  | 0, _ => none
  | _ + 1, FnVal.origStyle s => some [SaveEv.styled s]
  | fuel + 1, FnVal.meListener =>
      match st.autoSaveListener with
      | none => none
      | some f => invoke st fuel f
  | fuel + 1, FnVal.afterSave f s =>
      (invoke st fuel f).map (fun evs => evs ++ [SaveEv.saved s])

/-- The state transition performed by the before-advice of
addAutoSaveAspect when bindInfoWindow runs for session sid, in source
order: capture geomInfo.commitStyling into me.autoSaveListener, replace
geomInfo.commitStyling with the me.autoSaveListener-reading closure,
then addAfter-wrap the autoSaveListener member with the saveData call
for this geomInfo. -/
def bindInfoWindow (st : AspectState) (sid : Nat) : AspectState :=
  let captured := st.commitStyling sid
  let st1 : AspectState :=
    { autoSaveListener := some captured,
      commitStyling := fun j => if j = sid then FnVal.meListener else st.commitStyling j }
  { st1 with autoSaveListener := st1.autoSaveListener.map (fun f => FnVal.afterSave f sid) }

/-- One commit of session sid: invoking the current
geomInfo.commitStyling of that session. -/
def commitOnce (st : AspectState) (sid : Nat) : Option (List SaveEv) :=
  invoke st 9 (st.commitStyling sid)

/-- The state before any session has bound: autoSaveListener is null
and each session still holds its own fresh commitStyling. -/
def freshAspectState : AspectState :=
  { autoSaveListener := none, commitStyling := fun s => FnVal.origStyle s }

/-! ## Derived runs and concrete fixtures -/

/-- Runs a sequence of button clicks, keeping the final state. -/
def clickSeq : GCState → List String → Option GCState
  | st, [] => some st
  | st, x :: xs =>
      match clickButton st x with
      | none => none
      | some (st1, _) => clickSeq st1 xs

/-- Whether button b shows the down image after a sequence of clicks. -/
def clickSeqDown (st : GCState) (xs : List String) (b : String) : Option Bool :=
  (clickSeq st xs).map (fun s => s.down b)

/-- A controls instance with one registered button whose img shows the
down image. -/
def allDownState : GCState :=
  { buttons := ["markerControl"], down := fun _ => true }

/-- A two-button controls instance with both imgs up. -/
def twoButtonState : GCState :=
  { buttons := ["markerControl", "polygonControl"], down := fun _ => false }

/-- A demonstration object with one member m wrapping the successor
function. -/
def adviceDemoObj : Obj := [("m", mkFn "orig" (fun z => z + 1))]

/-- A controls map with only the marker control registered; its load
method returns 7. -/
def demoControls : ControlsMap :=
  fun n => if n = "markerControl" then some (fun _ => Except.ok 7) else none

/-- A record of type line. -/
def lineRecordDemo : StorageRecord :=
  { type := "line", geometry := [], title := ("t", ""), id := none }

/-- A record of type point. -/
def pointRecordDemo : StorageRecord :=
  { type := "point", geometry := [], title := ("t", ""), id := none }

/-- A record of a type none of the dispatch cases mention. -/
def circleRecordDemo : StorageRecord :=
  { type := "circle", geometry := [], title := ("t", ""), id := none }

/-! ## Helper lemmas -/

/-- Reading the advised member after attach_ yields the link applied to
the previous member value. -/
theorem lookupFn_attach_eq (obj : Obj) (m : String) (link : JsFn → JsFn) :
    lookupFn (aop.attach_ obj m link) m = (lookupFn obj m).map link := by
  induction obj with
  | nil => rfl
  | cons p rest ih =>
    obtain ⟨k, f⟩ := p
    by_cases h : k = m
    · subst h
      simp [aop.attach_, lookupFn]
    · simp only [aop.attach_, lookupFn, List.map_cons, List.find?] at ih ⊢
      simp only [h, if_false, decide_eq_true_eq] at ih ⊢
      simpa [h] using ih

/-! ## Claim theorems -/

/-- Claim C1: after any sequence of toggleButtons calls with registered
tool names, at most one button shows the down image, and it is exactly
the button named in the most recent call. -/
theorem toggleButtons_exclusive (ns : List String) :
    ∀ (st : GCState) (n : String), (∀ m ∈ ns, m ∈ st.buttons) → n ∈ st.buttons →
    ∃ st', runToggles st (ns ++ [n]) = some st' ∧ st'.buttons = st.buttons ∧
      ∀ b ∈ st.buttons, (st'.down b = true ↔ b = n) := by
  induction ns with
  | nil =>
    intro st n _ hn
    refine ⟨{ st with
        down := fun b => if b = n then true else if b ∈ st.buttons then false else st.down b },
      ?_, rfl, ?_⟩
    · simp [runToggles, toggleButtons, hn]
    · intro b hb
      by_cases hbn : b = n <;> simp [hbn, hb]
  | cons m ms ih =>
    intro st n hns hn
    have hm : m ∈ st.buttons := hns m (by simp)
    have hstep : runToggles st ((m :: ms) ++ [n]) =
        runToggles { st with
          down := fun b => if b = m then true else if b ∈ st.buttons then false else st.down b }
          (ms ++ [n]) := by
      simp [runToggles, toggleButtons, hm]
    obtain ⟨st', h1, h2, h3⟩ :=
      ih { st with
            down := fun b => if b = m then true else if b ∈ st.buttons then false else st.down b }
        n (fun x hx => hns x (by simp [hx])) hn
    exact ⟨st', by rw [hstep]; exact h1, h2, h3⟩

/-- Witness for C1: two registered buttons, toggling marker then polygon
leaves exactly the polygon button down. -/
theorem toggleButtons_exclusive_witness :
    ((∀ m ∈ ["markerControl"], m ∈ twoButtonState.buttons) ∧
      "polygonControl" ∈ twoButtonState.buttons) ∧
    ∃ st', runToggles twoButtonState (["markerControl"] ++ ["polygonControl"]) = some st' ∧
      st'.buttons = twoButtonState.buttons ∧
      ∀ b ∈ twoButtonState.buttons, (st'.down b = true ↔ b = "polygonControl") :=
  ⟨⟨by decide, by decide⟩,
    toggleButtons_exclusive ["markerControl"] twoButtonState "polygonControl"
      (by decide) (by decide)⟩

/-- Claim C7 counterexample: with the marker tool registered (its button
down), toggleButtons with no name completes with an empty call trace —
no registered deactivate function is called, although the claim
requires a deact call with notifyOthers false for every tool. -/
theorem toggleButtons_none_callsNothing_counterexample :
    allDownState.buttons = ["markerControl"] ∧
    (toggleButtons allDownState none).map (fun p => p.2) = some [] ∧
    some ([] : List CallEv) ≠ some [CallEv.deact "markerControl" false] := by
  refine ⟨rfl, rfl, ?_⟩
  decide

/-- Claim C7 as amended: toggleButtons with no tool name sets every
registered button to its up image (the NoneActive configuration) and
calls no deactivate function at all, hence cannot recurse back into
toggling; the guarded loop over stopDigitizingFuncs_ runs only when a
name is supplied. -/
theorem toggleButtons_none_noneActive (st : GCState) :
    ∃ st', toggleButtons st none = some (st', []) ∧ st'.buttons = st.buttons ∧
      ∀ b ∈ st.buttons, st'.down b = false := by
  refine ⟨{ st with down := fun b => if b ∈ st.buttons then false else st.down b },
    rfl, rfl, ?_⟩
  intro b hb
  simp [hb]

/-- Claim C5: starting from a state where the registered button x shows
the up image, clicking x turns it on, clicking it again returns every
registered button to the up image (NoneActive), and a third click turns
x on again. -/
theorem clickButton_roundTrip (st : GCState) (x : String)
    (hx : x ∈ st.buttons) (hup : st.down x = false) :
    clickSeqDown st [x] x = some true ∧
    (∀ b ∈ st.buttons, clickSeqDown st [x, x] b = some false) ∧
    clickSeqDown st [x, x, x] x = some true := by
  refine ⟨?_, ?_, ?_⟩
  · simp [clickSeqDown, clickSeq, clickButton, toggleButtons, hx, hup]
  · intro b hb
    simp [clickSeqDown, clickSeq, clickButton, toggleButtons, hx, hup, hb]
  · simp [clickSeqDown, clickSeq, clickButton, toggleButtons, hx, hup]

/-- Witness for C5: one registered button, three clicks. -/
theorem clickButton_roundTrip_witness :
    ("markerControl" ∈ (⟨["markerControl"], fun _ => false⟩ : GCState).buttons ∧
      (⟨["markerControl"], fun _ => false⟩ : GCState).down "markerControl" = false) ∧
    (clickSeqDown ⟨["markerControl"], fun _ => false⟩ ["markerControl"] "markerControl"
        = some true ∧
      (∀ b ∈ (⟨["markerControl"], fun _ => false⟩ : GCState).buttons,
        clickSeqDown ⟨["markerControl"], fun _ => false⟩ ["markerControl", "markerControl"] b
          = some false) ∧
      clickSeqDown ⟨["markerControl"], fun _ => false⟩
          ["markerControl", "markerControl", "markerControl"] "markerControl" = some true) :=
  ⟨⟨by decide, by decide⟩,
    clickButton_roundTrip ⟨["markerControl"], fun _ => false⟩ "markerControl"
      (by decide) (by decide)⟩

/-- Claim C2: attaching addAfter(obj, m, A) and then addAfter(obj, m, B)
makes a call of obj.m run the original first, then A with the original
result, then B with the return value of A, and return the value B
returns; the later attachment is the outer wrapper. -/
theorem addAfter_composition (obj : Obj) (g fa fb : Int → Int) (r : String) (x : Int)
    (h : lookupFn obj "m" = some (mkFn "orig" g)) :
    callMethod (aop.addAfter (aop.addAfter obj "m" (mkAfter "A" fa)) "m" (mkAfter "B" fb))
        "m" r x []
      = some (fb (fa (g x)),
          [("orig", r, x), ("A", r, g x), ("B", r, fa (g x))]) := by
  unfold callMethod aop.addAfter
  rw [lookupFn_attach_eq, lookupFn_attach_eq, h]
  rfl

/-- Witness for C2. -/
theorem addAfter_composition_witness :
    lookupFn adviceDemoObj "m" = some (mkFn "orig" (fun z => z + 1)) ∧
    callMethod
        (aop.addAfter (aop.addAfter adviceDemoObj "m" (mkAfter "A" (fun z => z * 2)))
          "m" (mkAfter "B" (fun z => z - 3)))
        "m" "obj" 0 []
      = some (-1, [("orig", "obj", 0), ("A", "obj", 1), ("B", "obj", 2)]) :=
  ⟨rfl, addAfter_composition adviceDemoObj (fun z => z + 1) (fun z => z * 2)
    (fun z => z - 3) "obj" 0 rfl⟩

/-- Claim C3: after addBefore(obj, m, fn), a call of obj.m first runs fn
with the caller arguments, then runs the original with the argument
list fn returned, and hands back the original result unchanged. -/
theorem addBefore_argument_rewrite (obj : Obj) (g fv : Int → Int) (r : String) (x : Int)
    (h : lookupFn obj "m" = some (mkFn "orig" g)) :
    callMethod (aop.addBefore obj "m" (mkBefore "fn" fv)) "m" r x []
      = some (g (fv x), [("fn", r, x), ("orig", r, fv x)]) := by
  unfold callMethod aop.addBefore
  rw [lookupFn_attach_eq, h]
  rfl

/-- Witness for C3. -/
theorem addBefore_argument_rewrite_witness :
    lookupFn adviceDemoObj "m" = some (mkFn "orig" (fun z => z + 1)) ∧
    callMethod (aop.addBefore adviceDemoObj "m" (mkBefore "fn" (fun z => z * 10)))
        "m" "obj" 2 []
      = some (21, [("fn", "obj", 2), ("orig", "obj", 20)]) :=
  ⟨rfl, addBefore_argument_rewrite adviceDemoObj (fun z => z + 1) (fun z => z * 10)
    "obj" 2 rfl⟩

/-- Claim C9: for all three advice kinds the installed wrapper, invoked
with an arbitrary receiver r, hands that same r to the original
function and to the advice as its target argument — the logged receiver
is always the invocation receiver, for every attachment object obj, so
the wrapper never rebinds the call to the object supplied when the
advice was attached. -/
theorem advice_receiver_preserved (obj : Obj) (g fv fa : Int → Int) (r : String) (x : Int)
    (h : lookupFn obj "m" = some (mkFn "orig" g)) :
    callMethod (aop.addBefore obj "m" (mkBefore "bef" fv)) "m" r x []
      = some (g (fv x), [("bef", r, x), ("orig", r, fv x)]) ∧
    callMethod (aop.addAfter obj "m" (mkAfter "aft" fa)) "m" r x []
      = some (fa (g x), [("orig", r, x), ("aft", r, g x)]) ∧
    callMethod (aop.addAround obj "m" (mkAround "arnd")) "m" r x []
      = some (g x, [("arnd", r, x), ("orig", r, x)]) := by
  refine ⟨?_, ?_, ?_⟩
  · unfold callMethod aop.addBefore
    rw [lookupFn_attach_eq, h]
    rfl
  · unfold callMethod aop.addAfter
    rw [lookupFn_attach_eq, h]
    rfl
  · unfold callMethod aop.addAround
    rw [lookupFn_attach_eq, h]
    rfl

/-- Witness for C9: the receiver passed at call time, not the attachment
object, reaches the original and the advice. -/
theorem advice_receiver_preserved_witness :
    lookupFn adviceDemoObj "m" = some (mkFn "orig" (fun z => z + 1)) ∧
    (callMethod (aop.addBefore adviceDemoObj "m" (mkBefore "bef" (fun z => z * 10)))
        "m" "someOtherReceiver" 2 []
      = some (21, [("bef", "someOtherReceiver", 2), ("orig", "someOtherReceiver", 20)]) ∧
    callMethod (aop.addAfter adviceDemoObj "m" (mkAfter "aft" (fun z => z * 2)))
        "m" "someOtherReceiver" 2 []
      = some (6, [("orig", "someOtherReceiver", 2), ("aft", "someOtherReceiver", 3)]) ∧
    callMethod (aop.addAround adviceDemoObj "m" (mkAround "arnd"))
        "m" "someOtherReceiver" 2 []
      = some (3, [("arnd", "someOtherReceiver", 2), ("orig", "someOtherReceiver", 2)])) :=
  ⟨rfl, advice_receiver_preserved adviceDemoObj (fun z => z + 1) (fun z => z * 10)
    (fun z => z * 2) "someOtherReceiver" 2 rfl⟩

/-- Claim C4 counterexample: for the record with vertices
(lat, lng) = (1, 2), (3, 4) and title "Lot A", the geometry field of the
payload saveData builds is not the bare array [[2, 1], [4, 3]] the claim
describes: saveData stringifies the GeoJSON geometry object before
posting, so the field is a JSON string. -/
theorem saveDataPayload_not_bare_array :
    (saveDataPayload lotARecord).geometry ≠
      Json.arr [Json.arr [Json.num 2, Json.num 1], Json.arr [Json.num 4, Json.num 3]] :=
  fun h => Json.noConfusion h

/-- Claim C4 as amended: the payload-building step of saveData on that
record yields type "poly", name "Lot A", and as geometry the JSON
stringification of the object with type "Polygon" and coordinates
[[2, 1], [4, 3]] — the ordered [lng, lat] pairs, swapped from the
(lat, lng) vertex input, in vertex iteration order; the construction is
a pure function of the record. -/
theorem saveDataPayload_lotA :
    saveDataPayload lotARecord =
      { type := "poly",
        geometry := Json.str "\x7b\"type\":\"Polygon\",\"coordinates\":[[2,1],[4,3]]\x7d",
        name := "Lot A" } := by
  rfl

/-- Claim C8: dispatching a line record while no polyline control is
registered logs one debug line and completes with an undefined result
instead of raising, and a point record dispatched against the same
controls still loads successfully. -/
theorem createGeometry_tolerant (controls : ControlsMap)
    (rec1 rec2 : StorageRecord) (load : StorageRecord → Except String Int) (v : Int)
    (h1 : rec1.type = "line") (h2 : controls "polylineControl" = none)
    (h3 : rec2.type = "point") (h4 : controls "markerControl" = some load)
    (h5 : load rec2 = Except.ok v) :
    createGeometry_ controls rec1 = (none, [createGeometryDebugMsg "TypeError"], []) ∧
    createGeometry_ controls rec2 = (some v, [], ["markerControl"]) := by
  constructor
  · simp [createGeometry_, dispatchLoad, h1, h2]
  · simp [createGeometry_, dispatchLoad, h3, h4, h5]

/-- Witness for C8. -/
theorem createGeometry_tolerant_witness :
    (lineRecordDemo.type = "line" ∧ demoControls "polylineControl" = none ∧
      pointRecordDemo.type = "point" ∧
      demoControls "markerControl" = some (fun _ => Except.ok 7) ∧
      (fun (_ : StorageRecord) => (Except.ok 7 : Except String Int)) pointRecordDemo
        = Except.ok 7) ∧
    (createGeometry_ demoControls lineRecordDemo
        = (none, [createGeometryDebugMsg "TypeError"], []) ∧
      createGeometry_ demoControls pointRecordDemo = (some 7, [], ["markerControl"])) :=
  ⟨⟨rfl, rfl, rfl, rfl, rfl⟩,
    createGeometry_tolerant demoControls lineRecordDemo pointRecordDemo
      (fun _ => Except.ok 7) 7 rfl rfl rfl rfl rfl⟩

/-- Claim C10: a record whose type is none of point, line, poly falls
through the switch of createGeometry_ silently: undefined result, no
debug line, no load method invoked, for any registered controls. -/
theorem createGeometry_unknown_type_silent (controls : ControlsMap)
    (record : StorageRecord)
    (h1 : record.type ≠ "point") (h2 : record.type ≠ "line") (h3 : record.type ≠ "poly") :
    createGeometry_ controls record = (none, [], []) := by
  simp [createGeometry_, h1, h2, h3]

/-- Witness for C10: a circle record against controls that do have a
registered marker control. -/
theorem createGeometry_unknown_type_silent_witness :
    (circleRecordDemo.type ≠ "point" ∧ circleRecordDemo.type ≠ "line" ∧
      circleRecordDemo.type ≠ "poly") ∧
    createGeometry_ demoControls circleRecordDemo = (none, [], []) :=
  ⟨⟨by decide, by decide, by decide⟩,
    createGeometry_unknown_type_silent demoControls circleRecordDemo
      (by decide) (by decide) (by decide)⟩

/-- Unfolding step of invoke for the slot-reading closure. -/
theorem invoke_succ_meListener (st : AspectState) (fuel : Nat) :
    invoke st (fuel + 1) FnVal.meListener =
      match st.autoSaveListener with
      | none => none
      | some f => invoke st fuel f := rfl

/-- Claim C6 counterexample: after session 1 and then session 2 are
bound, invoking the commitStyling callback of session 1 runs the
original styling of session 2 and dispatches saveData with the geomInfo
of session 2 — not with the geomInfo of session 1 as the claim states —
because all replaced callbacks read the single autoSaveListener slot,
which the latest bind overwrote. -/
theorem commitStyling_cross_session_counterexample :
    commitOnce (bindInfoWindow (bindInfoWindow freshAspectState 1) 2) 1
        = some [SaveEv.styled 2, SaveEv.saved 2] ∧
    SaveEv.saved 1 ∉ [SaveEv.styled 2, SaveEv.saved 2] := by
  constructor
  · decide
  · decide

/-- Claim C6 as amended: for the most recently bound session — one whose
commitStyling slot still held its own fresh callback when bindInfoWindow
intercepted it, with no later bind since — invoking its replaced
commitStyling runs that session styling and dispatches saveData with
that session geomInfo exactly once per commit. -/
theorem commitStyling_latest_session_saves_once (st : AspectState) (sid : Nat)
    (h : st.commitStyling sid = FnVal.origStyle sid) :
    commitOnce (bindInfoWindow st sid) sid = some [SaveEv.styled sid, SaveEv.saved sid] := by
  have hc : (bindInfoWindow st sid).commitStyling sid = FnVal.meListener := by
    simp [bindInfoWindow]
  have ha : (bindInfoWindow st sid).autoSaveListener
      = some (FnVal.afterSave (FnVal.origStyle sid) sid) := by
    simp [bindInfoWindow, h]
  unfold commitOnce
  rw [hc, invoke_succ_meListener, ha]
  rfl

/-- Witness for C6 as amended: a single freshly bound session. -/
theorem commitStyling_latest_session_saves_once_witness :
    freshAspectState.commitStyling 1 = FnVal.origStyle 1 ∧
    commitOnce (bindInfoWindow freshAspectState 1) 1
      = some [SaveEv.styled 1, SaveEv.saved 1] :=
  ⟨rfl, commitStyling_latest_session_saves_once freshAspectState 1 rfl⟩
